import Mathlib

/-!
Shallow embedding of `src/model.py`: the pydantic models `Ingredient`, `Step`,
`Recipe` and `InventoryItem` built over the pint unit registry, together with
their field-validation semantics (pydantic v1 lax mode, the only mode in which
the arbitrary `Unit` field annotation is accepted) and their query operations
`__str__`, `to_quantity` and `get_total_time`.

Modelling conventions:
- Python floats are modelled as exact rationals of the decimal literals the
  callers write; all quantities appearing in the repository's tests are exact
  finite decimals, for which Python's shortest-round-trip `repr` coincides
  with the plain decimal expansion produced by `pyFloatStr` below.
- A value passed to a pydantic constructor is a `PyValue`; an argument omitted
  entirely is `Option.none`.
- pydantic raises a single `ValidationError` carrying per-field sub-errors; we
  model the first failing field's error, which is all the claims distinguish.
-/

namespace RecipeModel

/-- Units of the pint registry exercised by the repository (mass, volume and
the dimensionless family used for countable items such as eggs). -/
inductive PintUnit where
  | gram
  | kilogram
  | milliliter
  | teaspoon
  | tablespoon
  | dimensionless
  deriving DecidableEq

/-- Python `str()` of a pint `Unit`: its canonical long name; the
dimensionless unit prints as "dimensionless" in pint's default format. -/
def PintUnit.toStr : PintUnit → String
  | .gram => "gram"
  | .kilogram => "kilogram"
  | .milliliter => "milliliter"
  | .teaspoon => "teaspoon"
  | .tablespoon => "tablespoon"
  | .dimensionless => "dimensionless"

/-- A Python value as it may be handed to a pydantic model constructor: the
shapes exercised by the repository's tests (text, integer, float, None, list,
mapping, resolved pint unit). -/
inductive PyValue where
  | pyStr (s : String)
  | pyInt (n : Int)
  | pyFloat (q : Rat)
  | pyNone
  | pyList
  | pyDict
  | pyUnit (u : PintUnit)
  deriving DecidableEq

/-- A pydantic per-field validation error (the `ValidationError` sub-error for
the first failing field): field required, wrong type, or a violated
`gt=0` / `ge=0` / `ge=1` bound from `Field(...)`. -/
inductive FieldError where
  | missingField (fld : String)
  | wrongType (fld : String)
  | notGreaterThanZero
  | notGreaterEqZero
  | notGreaterEqOne
  deriving DecidableEq

/-- Smallest exponent k with 10 ^ k divisible by d (d a divisor of a power of
ten, as every finite-decimal denominator is); search is bounded, 0 otherwise. -/
def findDecExp (d : Nat) : Nat :=
  (((List.range 80).find? (fun k => 10 ^ k % d == 0)).getD 0)

/-- Python `str()` / f-string interpolation of a float holding an exact finite
decimal: integer part, a dot, and the fractional digits with no trailing
zeros; an integral value prints with a single trailing "0" (3.0 prints as
"3.0", 0.5 as "0.5", 100.0 as "100.0"). -/
def pyFloatStr (q : Rat) : String :=
  let sign := if q < 0 then "-" else ""
  let n := q.num.natAbs
  let d := q.den
  let k := findDecExp d
  let scaled := n * 10 ^ k / d
  if k == 0 then sign ++ toString scaled ++ ".0"
  else
    let s := toString scaled
    let s := if s.length < k + 1 then
      String.mk (List.replicate (k + 1 - s.length) '0') ++ s
    else s
    let cs := s.toList
    sign ++ String.mk (cs.take (cs.length - k)) ++ "." ++ String.mk (cs.drop (cs.length - k))

/-- Validation of a required `str` field under pydantic v1: text passes
unchanged (with no emptiness or pattern constraint — `Field(...)` declares the
field required, nothing more), numbers are coerced through `str()`, absence is
a "field required" error and other shapes are type errors. -/
def validateStrField (fld : String) : Option PyValue → Except FieldError String
  | Option.none => .error (.missingField fld)
  | some (.pyStr s) => .ok s
  | some (.pyInt n) => .ok (toString n)
  | some (.pyFloat q) => .ok (pyFloatStr q)
  | some _ => .error (.wrongType fld)

/-- Validation of `quantity: float = Field(..., gt=0)`: numeric values are
admitted (ints coerce to float) and checked strictly positive; None, lists and
mappings are type errors. Pydantic v1 additionally parses numeric strings —
no claim supplies a string quantity, and here a string is a type error. -/
def validateFloatGt0 : Option PyValue → Except FieldError Rat
  | Option.none => .error (.missingField "quantity")
  | some (.pyFloat q) => if 0 < q then .ok q else .error .notGreaterThanZero
  | some (.pyInt n) => if 0 < (n : Rat) then .ok (n : Rat) else .error .notGreaterThanZero
  | some _ => .error (.wrongType "quantity")

/-- Validation of `unit: Unit = Field(...)`: pydantic validates the arbitrary
class annotation by an `isinstance(v, Unit)` check, so only an
already-resolved pint unit passes; text, integers, None, lists and mappings
are type errors and nothing is coerced. -/
def validateUnitField : Option PyValue → Except FieldError PintUnit
  | Option.none => .error (.missingField "unit")
  | some (.pyUnit u) => .ok u
  | some _ => .error (.wrongType "unit")

/-- Validation of `order: int = Field(..., ge=1)`: an integer is checked
against the lower bound; absence is a "field required" error. -/
def validateIntGe1 : Option PyValue → Except FieldError Int
  | Option.none => .error (.missingField "order")
  | some (.pyInt n) => if 1 ≤ n then .ok n else .error .notGreaterEqOne
  | some _ => .error (.wrongType "order")

/-- Validation of `Optional[int] = Field(None, ge=0)`: absence or None yields
None (the declared default), an integer is checked against the bound. -/
def validateOptIntGe0 (fld : String) : Option PyValue → Except FieldError (Option Int)
  | Option.none => .ok Option.none
  | some .pyNone => .ok Option.none
  | some (.pyInt n) => if 0 ≤ n then .ok (some n) else .error .notGreaterEqZero
  | some _ => .error (.wrongType fld)

/-- The validated `Ingredient` model: name, quantity and unit fields. -/
structure Ingredient where
  name : String
  quantity : Rat
  unit : PintUnit
  deriving DecidableEq

/-- Construction `Ingredient(name=..., quantity=..., unit=...)`: pydantic
validates each declared field; a fully validated instance or the first
field's error. -/
def Ingredient.construct (name quantity unit : Option PyValue) :
    Except FieldError Ingredient :=
  match validateStrField "name" name with
  | .error e => .error e
  | .ok n =>
    match validateFloatGt0 quantity with
    | .error e => .error e
    | .ok q =>
      match validateUnitField unit with
      | .error e => .error e
      | .ok u => .ok ⟨n, q, u⟩

/-- Python method `Ingredient.__str__`: on a validated instance `self.unit` is
a pint `Unit`, never a `Quantity`, so `unit_str` is `str(self.unit)`; the
format string interpolates quantity, unit string and name unconditionally —
there is no special case for the dimensionless unit. -/
def Ingredient.render (i : Ingredient) : String :=
  pyFloatStr i.quantity ++ " " ++ i.unit.toStr ++ " of " ++ i.name

/-- A pint `Quantity`: a magnitude paired with units. -/
structure PintQuantity where
  magnitude : Rat
  units : PintUnit
  deriving DecidableEq

/-- Python method `Ingredient.to_quantity`: `self.quantity * self.unit`, the
pint quantity whose magnitude is the float and whose units are the unit. -/
def Ingredient.to_quantity (i : Ingredient) : PintQuantity :=
  ⟨i.quantity, i.unit⟩

/-- Attribute assignment `ingredient.name = v`: the models declare no Config,
so pydantic's default `allow_mutation = True` lets `__setattr__` replace the
field, and `validate_assignment = False` skips re-validation. -/
def Ingredient.assignName (i : Ingredient) (v : String) : Ingredient :=
  { i with name := v }

/-- Attribute assignment `ingredient.quantity = v`: accepted and unvalidated
for the same reason, even when v violates the `gt=0` bound. -/
def Ingredient.assignQuantity (i : Ingredient) (v : Rat) : Ingredient :=
  { i with quantity := v }

/-- The validated `Step` model: order and description fields. -/
structure Step where
  order : Int
  description : String
  deriving DecidableEq

/-- Construction `Step(order=..., description=...)`: order is validated
against `ge=1`, description as a required `str`. -/
def Step.construct (order description : Option PyValue) : Except FieldError Step :=
  match validateIntGe1 order with
  | .error e => .error e
  | .ok o =>
    match validateStrField "description" description with
    | .error e => .error e
    | .ok d => .ok ⟨o, d⟩

/-- The validated `Recipe` model. -/
structure Recipe where
  recipe_id : Option String
  name : String
  description : Option String
  ingredients : List Ingredient
  steps : List Step
  prep_time_minutes : Option Int
  cook_time_minutes : Option Int
  deriving DecidableEq

/-- Construction of a `Recipe`: the optional text fields and the sub-model
lists are taken already validated (pydantic accepts instances of the declared
sub-models by isinstance); the two optional time fields are validated against
`ge=0` when present. -/
def Recipe.construct (recipe_id : Option String) (name : Option PyValue)
    (description : Option String) (ingredients : List Ingredient)
    (steps : List Step) (prep cook : Option PyValue) :
    Except FieldError Recipe :=
  match validateStrField "name" name with
  | .error e => .error e
  | .ok n =>
    match validateOptIntGe0 "prep_time_minutes" prep with
    | .error e => .error e
    | .ok p =>
      match validateOptIntGe0 "cook_time_minutes" cook with
      | .error e => .error e
      | .ok c => .ok ⟨recipe_id, n, description, ingredients, steps, p, c⟩

/-- Python method `Recipe.get_total_time`: each absent time contributes 0 and
the two contributions are summed. -/
def Recipe.get_total_time (r : Recipe) : Int :=
  let prep := match r.prep_time_minutes with
    | some p => p
    | Option.none => 0
  let cook := match r.cook_time_minutes with
    | some c => c
    | Option.none => 0
  prep + cook

/-- The `InventoryItem` model: inherits name, quantity and unit from
`Ingredient` and adds two optional text fields. -/
structure InventoryItem where
  name : String
  quantity : Rat
  unit : PintUnit
  inventory_id : Option String
  storage_location : Option String
  deriving DecidableEq

/-- Construction of an `InventoryItem`: the three inherited fields run exactly
the `Ingredient` validators (the class body adds only the two optional text
fields, unconstrained). -/
def InventoryItem.construct (name quantity unit : Option PyValue)
    (inventory_id storage_location : Option String) :
    Except FieldError InventoryItem :=
  match validateStrField "name" name with
  | .error e => .error e
  | .ok n =>
    match validateFloatGt0 quantity with
    | .error e => .error e
    | .ok q =>
      match validateUnitField unit with
      | .error e => .error e
      | .ok u => .ok ⟨n, q, u, inventory_id, storage_location⟩

/-- The Python float 0.5 as an exact rational, written in lowest terms so
that it evaluates by kernel reduction. -/
def ratHalf : Rat := ⟨1, 2, by decide, Nat.coprime_one_left 2⟩

/-- Every successful `validateFloatGt0` run returns a strictly positive
quantity (the `gt=0` bound of the field). -/
theorem validateFloatGt0_pos (v : Option PyValue) (q : Rat)
    (h : validateFloatGt0 v = .ok q) : 0 < q := by
  cases v with
  | none => simp [validateFloatGt0] at h
  | some pv =>
      cases pv
      case pyFloat x =>
        simp only [validateFloatGt0] at h
        by_cases hx : 0 < x
        · rw [if_pos hx] at h
          simp only [Except.ok.injEq] at h
          subst h
          exact hx
        · rw [if_neg hx] at h
          exact absurd h (by simp)
      case pyInt n =>
        simp only [validateFloatGt0] at h
        by_cases hx : 0 < (n : Rat)
        · rw [if_pos hx] at h
          simp only [Except.ok.injEq] at h
          subst h
          exact hx
        · rw [if_neg hx] at h
          exact absurd h (by simp)
      all_goals simp [validateFloatGt0] at h

/-- Every Ingredient produced by a successful construction has a strictly
positive quantity. -/
theorem ingredient_construct_ok_pos (a b c : Option PyValue) (i : Ingredient)
    (h : Ingredient.construct a b c = .ok i) : 0 < i.quantity := by
  cases ha : validateStrField "name" a with
  | error e => simp [Ingredient.construct, ha] at h
  | ok n =>
      cases hb : validateFloatGt0 b with
      | error e => simp [Ingredient.construct, ha, hb] at h
      | ok q =>
          cases hc : validateUnitField c with
          | error e => simp [Ingredient.construct, ha, hb, hc] at h
          | ok u =>
              simp only [Ingredient.construct, ha, hb, hc, Except.ok.injEq] at h
              subst h
              exact validateFloatGt0_pos b q hb

/-- `get_total_time` equals the sum of the two optional times with absent
values defaulted to 0. -/
theorem recipe_total_time_getD (r : Recipe) :
    r.get_total_time = r.prep_time_minutes.getD 0 + r.cook_time_minutes.getD 0 := by
  rcases r with ⟨rid, nm, ds, ing, st, p, c⟩
  cases p <;> cases c <;> rfl

/-- Every successful `validateOptIntGe0` run returns an optional value whose
default-0 reading is non-negative (the `ge=0` bound). -/
theorem validateOptIntGe0_nonneg (fld : String) (v : Option PyValue) (o : Option Int)
    (h : validateOptIntGe0 fld v = .ok o) : 0 ≤ o.getD 0 := by
  cases v with
  | none =>
      simp only [validateOptIntGe0, Except.ok.injEq] at h
      subst h
      simp
  | some pv =>
      cases pv
      case pyNone =>
        simp only [validateOptIntGe0, Except.ok.injEq] at h
        subst h
        simp
      case pyInt n =>
        simp only [validateOptIntGe0] at h
        by_cases hn : 0 ≤ n
        · rw [if_pos hn] at h
          simp only [Except.ok.injEq] at h
          subst h
          simpa using hn
        · rw [if_neg hn] at h
          exact absurd h (by simp)
      all_goals simp [validateOptIntGe0] at h

/-- A Recipe used as a concrete example, varying the two time fields. -/
def exampleRecipe (p c : Option Int) : Recipe :=
  ⟨Option.none, "Pasta", Option.none, [], [], p, c⟩

/-- C1: the claim says a dimensionless unit makes `render()` omit the unit
token and the "of" infix, yielding "3.0 Eggs". Evaluating the embedded
`Ingredient.__str__` shows the non-dimensionless example does render as
claimed, but a dimensionless ingredient renders with the unit token and the
"of" infix included — the format string is applied unconditionally, so the
code contradicts the repository's own test for this case. -/
theorem C1_render_no_dimensionless_special_case :
    Ingredient.render ⟨"Salt", ratHalf, .teaspoon⟩ = "0.5 teaspoon of Salt" ∧
      Ingredient.render ⟨"Eggs", 3, .dimensionless⟩ = "3.0 dimensionless of Eggs" ∧
        Ingredient.render ⟨"Eggs", 3, .dimensionless⟩ ≠ "3.0 Eggs" :=
  ⟨by decide, by decide, by decide⟩

/-- C2: the claim says an empty name is rejected with a text-validation
error. Evaluating the embedded construction shows `Ingredient(name="",
quantity=1.0, unit=gram)` succeeds and produces an instance with an empty
name — the `str` field declares no emptiness constraint, contradicting the
repository's own test which expects a `ValidationError` for the empty
string. -/
theorem C2_empty_name_accepted :
    Ingredient.construct (some (.pyStr "")) (some (.pyFloat 1)) (some (.pyUnit .gram)) =
      .ok ⟨"", 1, .gram⟩ := rfl

/-- C3: for every quantity ≤ 0 (including 0 and negatives) and any text name
and resolved unit, Ingredient construction fails with the `gt=0` quantity
error, and InventoryItem construction with the same quantity fails with the
identical error. -/
theorem C3_nonpositive_quantity_rejected (nm : String) (u : PintUnit) (q : Rat)
    (hq : q ≤ 0) :
    Ingredient.construct (some (.pyStr nm)) (some (.pyFloat q)) (some (.pyUnit u)) =
        .error .notGreaterThanZero ∧
      InventoryItem.construct (some (.pyStr nm)) (some (.pyFloat q)) (some (.pyUnit u))
          Option.none Option.none =
        .error .notGreaterThanZero := by
  have h : ¬ 0 < q := not_lt.mpr hq
  constructor <;>
    simp [Ingredient.construct, InventoryItem.construct, validateStrField,
      validateFloatGt0, h]

/-- C3 witness: quantity 0 is rejected by both constructions. -/
theorem C3_witness :
    Ingredient.construct (some (.pyStr "Test")) (some (.pyFloat 0)) (some (.pyUnit .gram)) =
        .error .notGreaterThanZero ∧
      InventoryItem.construct (some (.pyStr "Test")) (some (.pyFloat 0)) (some (.pyUnit .gram))
          Option.none Option.none =
        .error .notGreaterThanZero :=
  C3_nonpositive_quantity_rejected "Test" .gram 0 (by decide)

/-- C4: every unit argument that is not a resolved pint unit — text, integer,
None, list, mapping, or the argument omitted — makes Ingredient construction
fail with a unit-field validation error; in particular a unit name given as a
string is never coerced. -/
theorem C4_non_unit_value_rejected (nm : String) (q : Rat) (hq : 0 < q)
    (v : Option PyValue) (hv : ∀ u : PintUnit, v ≠ some (.pyUnit u)) :
    ∃ e : FieldError,
      Ingredient.construct (some (.pyStr nm)) (some (.pyFloat q)) v = .error e ∧
        (e = .wrongType "unit" ∨ e = .missingField "unit") := by
  cases v with
  | none =>
      refine ⟨.missingField "unit", ?_, Or.inr rfl⟩
      simp [Ingredient.construct, validateStrField, validateFloatGt0, validateUnitField, hq]
  | some pv =>
      cases pv
      case pyUnit u => exact absurd rfl (hv u)
      all_goals
        refine ⟨.wrongType "unit", ?_, Or.inl rfl⟩
        simp [Ingredient.construct, validateStrField, validateFloatGt0, validateUnitField, hq]

/-- C4 witness: the string "gram" supplied as the unit is rejected. -/
theorem C4_witness :
    ∃ e : FieldError,
      Ingredient.construct (some (.pyStr "Test")) (some (.pyFloat 1)) (some (.pyStr "gram")) =
          .error e ∧
        (e = .wrongType "unit" ∨ e = .missingField "unit") :=
  C4_non_unit_value_rejected "Test" 1 (by decide) (some (.pyStr "gram"))
    (by intro u h; simp at h)

/-- C5: for every non-empty name, positive quantity and resolved unit,
construction succeeds and `to_quantity` returns the pint quantity whose
magnitude is exactly the supplied quantity and whose units are exactly the
supplied unit, with no conversion. -/
theorem C5_construct_and_to_quantity_exact (nm : String) (hn : nm ≠ "")
    (q : Rat) (hq : 0 < q) (u : PintUnit) :
    ∃ i : Ingredient,
      Ingredient.construct (some (.pyStr nm)) (some (.pyFloat q)) (some (.pyUnit u)) =
          .ok i ∧
        i.to_quantity.magnitude = q ∧ i.to_quantity.units = u := by
  refine ⟨⟨nm, q, u⟩, ?_, rfl, rfl⟩
  simp [Ingredient.construct, validateStrField, validateFloatGt0, validateUnitField, hq]

/-- C5 witness: 100.0 grams of Flour constructs and converts exactly. -/
theorem C5_witness :
    ∃ i : Ingredient,
      Ingredient.construct (some (.pyStr "Flour")) (some (.pyFloat 100)) (some (.pyUnit .gram)) =
          .ok i ∧
        i.to_quantity.magnitude = 100 ∧ i.to_quantity.units = .gram :=
  C5_construct_and_to_quantity_exact "Flour" (by decide) 100 (by decide) .gram

/-- C6: for every Ingredient obtained from a successful construction,
reconstructing from the magnitude and units of its `to_quantity` result
together with the original name succeeds and returns an equal Ingredient. -/
theorem C6_roundtrip (a b c : Option PyValue) (i : Ingredient)
    (h : Ingredient.construct a b c = .ok i) :
    Ingredient.construct (some (.pyStr i.name))
        (some (.pyFloat i.to_quantity.magnitude))
        (some (.pyUnit i.to_quantity.units)) = .ok i := by
  have hq : 0 < i.quantity := ingredient_construct_ok_pos a b c i h
  simp [Ingredient.construct, validateStrField, validateFloatGt0, validateUnitField,
    Ingredient.to_quantity, hq]

/-- C6 witness: the round trip through `to_quantity` on 100.0 grams of Flour
reproduces the original Ingredient. -/
theorem C6_witness :
    Ingredient.construct (some (.pyStr (Ingredient.mk "Flour" 100 .gram).name))
        (some (.pyFloat (Ingredient.mk "Flour" 100 .gram).to_quantity.magnitude))
        (some (.pyUnit (Ingredient.mk "Flour" 100 .gram).to_quantity.units)) =
      .ok ⟨"Flour", 100, .gram⟩ :=
  C6_roundtrip (some (.pyStr "Flour")) (some (.pyFloat 100)) (some (.pyUnit .gram))
    ⟨"Flour", 100, .gram⟩ rfl

/-- C7: `get_total_time` returns the sum of the two optional times with each
absent value treated as 0; on the example recipes, both absent gives 0,
(10, absent) gives 10, and (10, 20) gives 30. -/
theorem C7_total_time :
    (∀ r : Recipe,
        r.get_total_time = r.prep_time_minutes.getD 0 + r.cook_time_minutes.getD 0) ∧
      (exampleRecipe Option.none Option.none).get_total_time = 0 ∧
        (exampleRecipe (some 10) Option.none).get_total_time = 10 ∧
          (exampleRecipe (some 10) (some 20)).get_total_time = 30 :=
  ⟨recipe_total_time_getD, rfl, rfl, rfl⟩

/-- C8 counterexample: the claim says no Step with an empty description is
ever produced, but constructing a Step with order 1 and an empty description
succeeds — the `str` field declares no emptiness constraint. -/
theorem C8_counterexample_empty_description :
    Step.construct (some (.pyInt 1)) (some (.pyStr "")) = .ok ⟨1, ""⟩ := rfl

/-- C8 amended: Step construction fails with the `ge=1` order error for every
order < 1 and succeeds at order 1; an absent description is a missing-field
error and a None, list or mapping description is a type error, but an empty
text description is accepted, and a numeric description is coerced to its
text form rather than rejected. -/
theorem C8_amended_step_validation (o : Int) (d : String) :
    (o < 1 →
        Step.construct (some (.pyInt o)) (some (.pyStr d)) = .error .notGreaterEqOne) ∧
      Step.construct (some (.pyInt 1)) (some (.pyStr d)) = .ok ⟨1, d⟩ ∧
        Step.construct (some (.pyInt 1)) Option.none =
            .error (.missingField "description") ∧
          Step.construct (some (.pyInt 1)) (some .pyNone) =
              .error (.wrongType "description") ∧
            Step.construct (some (.pyInt 1)) (some .pyList) =
                .error (.wrongType "description") ∧
              Step.construct (some (.pyInt 1)) (some .pyDict) =
                  .error (.wrongType "description") ∧
                Step.construct (some (.pyInt 1)) (some (.pyInt 7)) = .ok ⟨1, "7"⟩ := by
  refine ⟨?_, rfl, rfl, rfl, rfl, rfl, rfl⟩
  intro ho
  have h : ¬ 1 ≤ o := not_le.mpr ho
  simp [Step.construct, validateIntGe1, h]

/-- C8 witness: order 0 is rejected and order 1 is accepted. -/
theorem C8_witness :
    Step.construct (some (.pyInt 0)) (some (.pyStr "Mix")) = .error .notGreaterEqOne ∧
      Step.construct (some (.pyInt 1)) (some (.pyStr "Mix")) = .ok ⟨1, "Mix"⟩ :=
  ⟨(C8_amended_step_validation 0 "Mix").1 (by decide),
    (C8_amended_step_validation 0 "Mix").2.1⟩

/-- C9 counterexample: the claim says no field assignment can change any
field of an existing instance, but the models are not frozen (pydantic's
default mutable configuration), so assigning to `name` yields an instance
different from the original. -/
theorem C9_counterexample_assignment_mutates :
    Ingredient.assignName ⟨"Salt", ratHalf, .teaspoon⟩ "Pepper" ≠
      (⟨"Salt", ratHalf, .teaspoon⟩ : Ingredient) := by decide

/-- C9 amended: the entities define no mutator methods and the query
operations (`to_quantity` here) are pure reads of the fields, but the models
are not frozen: attribute assignment replaces the assigned field (leaving the
others), changes the instance whenever the value differs, and — with
assignment validation off by default — accepts even values violating the
construction invariant. -/
theorem C9_amended_mutability (i : Ingredient) (v : String) (q : Rat) :
    (Ingredient.assignName i v).name = v ∧
      (Ingredient.assignQuantity i q).quantity = q ∧
        (Ingredient.assignName i v).quantity = i.quantity ∧
          (v ≠ i.name → Ingredient.assignName i v ≠ i) ∧
            i.to_quantity = ⟨i.quantity, i.unit⟩ := by
  refine ⟨rfl, rfl, rfl, ?_, rfl⟩
  intro hv he
  exact hv (congrArg Ingredient.name he)

/-- C9 witness: assigning the name "Sugar" on 100.0 grams of Flour changes
the instance; assigning the quantity -1 is accepted unvalidated. -/
theorem C9_witness :
    (Ingredient.assignName ⟨"Flour", 100, .gram⟩ "Sugar").name = "Sugar" ∧
      (Ingredient.assignQuantity ⟨"Flour", 100, .gram⟩ (-1)).quantity = -1 ∧
        Ingredient.assignName ⟨"Flour", 100, .gram⟩ "Sugar" ≠
          (⟨"Flour", 100, .gram⟩ : Ingredient) :=
  ⟨(C9_amended_mutability ⟨"Flour", 100, .gram⟩ "Sugar" (-1)).1,
    (C9_amended_mutability ⟨"Flour", 100, .gram⟩ "Sugar" (-1)).2.1,
    (C9_amended_mutability ⟨"Flour", 100, .gram⟩ "Sugar" (-1)).2.2.2.1 (by decide)⟩

/-- C10: every validly constructed Recipe has a non-negative total time,
because construction rejects any present time below 0 and absent times
contribute 0. -/
theorem C10_total_time_nonneg (rid : Option String) (nm : Option PyValue)
    (ds : Option String) (ing : List Ingredient) (st : List Step)
    (p c : Option PyValue) (r : Recipe)
    (h : Recipe.construct rid nm ds ing st p c = .ok r) :
    0 ≤ r.get_total_time := by
  cases hn : validateStrField "name" nm with
  | error e => simp [Recipe.construct, hn] at h
  | ok n =>
      cases hp : validateOptIntGe0 "prep_time_minutes" p with
      | error e => simp [Recipe.construct, hn, hp] at h
      | ok po =>
          cases hc : validateOptIntGe0 "cook_time_minutes" c with
          | error e => simp [Recipe.construct, hn, hp, hc] at h
          | ok co =>
              simp only [Recipe.construct, hn, hp, hc, Except.ok.injEq] at h
              subst h
              rw [recipe_total_time_getD]
              exact add_nonneg (validateOptIntGe0_nonneg _ p po hp)
                (validateOptIntGe0_nonneg _ c co hc)

/-- C10 witness: the recipe with times 10 and 20 constructs and has a
non-negative total time. -/
theorem C10_witness :
    0 ≤ (Recipe.mk Option.none "Pasta" Option.none [] [] (some 10)
        (some 20)).get_total_time :=
  C10_total_time_nonneg Option.none (some (.pyStr "Pasta")) Option.none [] []
    (some (.pyInt 10)) (some (.pyInt 20))
    ⟨Option.none, "Pasta", Option.none, [], [], some 10, some 20⟩ rfl

end RecipeModel
